import Mathlib

/-!
Shallow embedding of `src/mysql_helper_functions.py`, a generic MySQL
data-access helper module built on `mysql.connector` and pandas.

Modelling conventions:
* `Value` models the scalar cell values that flow through the helpers.
* SQL statement text is modelled as a list of fragments (`Stmt`): `Frag.ph`
  stands for a literal `%s` placeholder marker written by a query builder,
  `Frag.lit` for any other (interpolated) text.  Whitespace of the Python
  triple-quoted strings is normalised; the order and content of all
  interpolated pieces is preserved.
* Engine-level behaviour is modelled by oracles: a statement execution
  either succeeds (with result rows, for reads) or raises
  `mysql.connector.Error` (`Option` / `Bool` parameters).  Every cursor /
  transaction / connection side effect performed by a function is recorded
  in an `Event` trace, and the borrowed connection is threaded explicitly
  as a `Conn` value.
* An uncaught Python exception escaping a function is modelled as
  `Except.error`; `PyError.unboundLocal` models the `UnboundLocalError`
  raised by `return result` when `result` was never assigned (the
  `connector.Error` branch of `get_table_columns`, `get_all_with_filter`
  and `get_all_with_multiple_filters`).
* Connection liveness is not consulted by the modelled bodies (the oracles
  stand for statement success), matching the abstraction level of the
  specification; the closing of the connection itself is recorded
  faithfully.
-/

inductive Value
  | int (n : Int)
  | str (s : String)
deriving DecidableEq

/-- Python `repr(value)`, as used on line 212 when update values are inlined
into the SET clause.  String escaping is not modelled. -/
def pyRepr : Value → String
  | .int n => toString n
  | .str s => "'" ++ s ++ "'"

/-- Python `str(value)`, as applied by the f-string quoting of IN-list
filter values on line 131. -/
def pyStr : Value → String
  | .int n => toString n
  | .str s => s

/-- A Python value in "filter values" position: either a bare scalar or a
tuple of scalars (`isinstance(filter_values, tuple)` distinguishes them). -/
inductive PyArg
  | scalar (v : Value)
  | tup (vs : List Value)
deriving DecidableEq

/-- Lines 218-219: `if not isinstance(filter_values, tuple):
filter_values = (filter_values, )`. -/
def coerceToTuple : PyArg → List Value
  | .scalar v => [v]
  | .tup vs => vs

/-- A fragment of SQL statement text: `ph` is a literal `%s` placeholder
marker written by the builder, `lit` is any other text. -/
inductive Frag
  | lit (s : String)
  | ph
deriving DecidableEq

abbrev Stmt := List Frag

/-- The number of `%s` placeholder markers a builder wrote into a
statement. -/
def numPlaceholders : Stmt → Nat
  | [] => 0
  | Frag.ph :: rest => numPlaceholders rest + 1
  | Frag.lit _ :: rest => numPlaceholders rest

/-- Python `sep.join(parts)` on statement fragments. -/
def joinFrags (sep : String) : List (List Frag) → List Frag
  | [] => []
  | p :: ps =>
    match ps with
    | [] => p
    | _ :: _ => p ++ [Frag.lit sep] ++ joinFrags sep ps

/-- Lines 167 and 208: the list comprehension
`[f"{column} = %s" for column in column_filters]` — one equality predicate,
with one placeholder, per filter column, in declaration order. -/
def eqPredicates (column_filters : List String) : List (List Frag) :=
  column_filters.map (fun column => [Frag.lit (column ++ " = "), Frag.ph])

/-- Lines 167 and 208: `" AND ".join(...)` over the equality predicates. -/
def where_clause (column_filters : List String) : Stmt :=
  joinFrags " AND " (eqPredicates column_filters)

/-- Lines 44-47: `SELECT * FROM {table_name}`. -/
def selectAllQuery (table_name : String) : Stmt :=
  [Frag.lit ("SELECT * FROM " ++ table_name)]

/-- Line 131: `", ".join([f"'{filter}'" for filter in filter_list])` — the
IN-list values are inlined as quoted literals, not bound parameters. -/
def filter_query (filter_list : List Value) : String :=
  String.intercalate ", " (filter_list.map (fun f => "'" ++ pyStr f ++ "'"))

/-- Lines 132-137: the single-column IN-filter SELECT statement. -/
def selectInQuery (table_name column_filter : String)
    (filter_list : List Value) : Stmt :=
  [Frag.lit ("SELECT * FROM " ++ table_name ++ " WHERE " ++ column_filter
    ++ " IN (" ++ filter_query filter_list ++ ");")]

/-- Lines 168-172: the multi-column equality SELECT statement. -/
def selectEqQuery (table_name : String) (column_filters : List String) : Stmt :=
  [Frag.lit ("SELECT * FROM " ++ table_name ++ " WHERE ")]
    ++ where_clause column_filters ++ [Frag.lit ";"]

/-- Lines 104-106: `DESCRIBE {table_name};`. -/
def describeQuery (table_name : String) : Stmt :=
  [Frag.lit ("DESCRIBE " ++ table_name ++ ";")]

/-- Lines 69-78: the INSERT statement with one `%s` placeholder per
dataframe column (`", ".join(["%s"] * len(data_df.columns))`). -/
def insertQuery (table_name : String) (columns : List String) : Stmt :=
  [Frag.lit ("INSERT INTO " ++ table_name ++ " ("
    ++ String.intercalate ", " columns ++ ") VALUES (")]
    ++ joinFrags ", " (columns.map (fun _ => [Frag.ph])) ++ [Frag.lit ")"]

/-- Lines 210-212: `zip(update_columns, update_values)` (which silently
truncates to the shorter list) followed by
`[f"{column} = {repr(value)}" for column, value in update_set]` — update
values are inlined via `repr`, not bound. -/
def combined_set (update_columns : List String)
    (update_values : List Value) : List String :=
  (update_columns.zip update_values).map
    (fun cv => cv.1 ++ " = " ++ pyRepr cv.2)

/-- Line 214: `", ".join(combined_set)`. -/
def set_clause (update_columns : List String)
    (update_values : List Value) : String :=
  String.intercalate ", " (combined_set update_columns update_values)

/-- Lines 221-225: the UPDATE statement; the SET clause is pure literal
text, the WHERE clause carries the bound-parameter placeholders. -/
def updateQuery (table_name : String) (column_filters : List String)
    (update_columns : List String) (update_values : List Value) : Stmt :=
  [Frag.lit ("UPDATE " ++ table_name ++ " SET "
    ++ set_clause update_columns update_values ++ " WHERE ")]
    ++ where_clause column_filters ++ [Frag.lit ";"]

/-- The borrowed database connection: only its liveness flag is relevant
to the specified behaviour. -/
structure Conn where
  isOpen : Bool
deriving DecidableEq

/-- One observable side effect on the cursor / transaction / connection. -/
inductive Event
  | execStmt (stmt : Stmt) (params : Option PyArg) (ok : Bool)
  | commit (ok : Bool)
  | rollback
  | closeCursor
  | closeConn
deriving DecidableEq

/-- The number of bound parameters supplied to `cursor.execute`: none, a
bare scalar (one value), or a tuple/list of values. -/
def numParams : Option PyArg → Nat
  | none => 0
  | some (.scalar _) => 1
  | some (.tup vs) => vs.length

/-- An execution event whose statement's placeholder count equals the
number of bound parameters supplied with it. -/
def Event.phMatch : Event → Bool
  | .execStmt stmt params _ => numPlaceholders stmt == numParams params
  | _ => true

def Event.isExec : Event → Bool
  | .execStmt _ _ _ => true
  | _ => false

def Event.isFailedExec : Event → Bool
  | .execStmt _ _ ok => !ok
  | _ => false

def Event.isCommit : Event → Bool
  | .commit _ => true
  | _ => false

/-- An uncaught Python exception escaping a function.  `unboundLocal`
models the `UnboundLocalError` raised by `return result` when `result`
was never assigned. -/
inductive PyError
  | unboundLocal
deriving DecidableEq

/-- The result of a filtered read: raw rows plus the column labels
attached to them, when any were attached. -/
structure ReadOut where
  rows : List (List Value)
  colLabels : Option (List Value)
deriving DecidableEq

/-- A pandas dataframe, reduced to its named columns and its rows (each
row positionally aligned with `columns`). -/
structure DataFrame where
  columns : List String
  rows : List (List Value)
deriving DecidableEq

/-- Lines 100-118, `get_table_columns`.  `describeOutcome` is the engine
oracle: `some rows` when `DESCRIBE` succeeds, `none` when it raises
`connector.Error`.  On success the first field of each row is collected
(`[row[0] for row in cursor.fetchall()]`).  On error the handler prints
and rolls back, the `finally` block closes the cursor, and then
`return result` raises `UnboundLocalError` because `result` was never
assigned — an uncaught crash, not a returned failure value. -/
def get_table_columns (describeOutcome : Option (List (List Value)))
    (conn : Conn) (table_name : String) :
    Except PyError (List Value) × List Event × Conn :=
  match describeOutcome with
  | some rows =>
    (Except.ok (rows.map (fun row => row.headD (Value.str ""))),
     [Event.execStmt (describeQuery table_name) none true, Event.closeCursor],
     conn)
  | none =>
    (Except.error PyError.unboundLocal,
     [Event.execStmt (describeQuery table_name) none false, Event.rollback,
      Event.closeCursor],
     conn)

/-- Lines 35-58, `get_all_data_from_table`.  Executes the SELECT-all
statement with no parameters; on `connector.Error` it rolls back and the
function falls off its end, returning Python `None`.  The connection is
not closed here. -/
def get_all_data_from_table (execOutcome : Option (List (List Value)))
    (conn : Conn) (table_name : String) :
    Option (List (List Value)) × List Event × Conn :=
  match execOutcome with
  | some rows =>
    (some rows,
     [Event.execStmt (selectAllQuery table_name) none true, Event.closeCursor],
     conn)
  | none =>
    (none,
     [Event.execStmt (selectAllQuery table_name) none false, Event.rollback,
      Event.closeCursor],
     conn)

/-- Lines 60-98, `insert_into_table`.  One INSERT statement shape is built
from the dataframe's columns, then executed once per row; the inner
per-row `try/except` catches `connector.Error` so an error on one row
never aborts the loop (`rowOk` is the per-row engine oracle).  The
transaction is committed exactly once after the loop; if the commit itself
raises (`commitOk = false`) the outer handler rolls back.  The function
ends with `return 1` on every path, and does not close the connection. -/
def insert_into_table (rowOk : List Value → Bool) (commitOk : Bool)
    (conn : Conn) (data_df : DataFrame) (table_name : String) :
    Nat × List Event × Conn :=
  let query := insertQuery table_name data_df.columns
  let rowEvents := data_df.rows.map
    (fun value => Event.execStmt query (some (PyArg.tup value)) (rowOk value))
  if commitOk then
    (1, rowEvents ++ [Event.commit true, Event.closeCursor], conn)
  else
    (1, rowEvents ++ [Event.commit false, Event.rollback, Event.closeCursor],
     conn)

/-- Lines 120-154, `get_all_with_filter`.  Executes the IN-filter SELECT
with NO bound parameters (the values were inlined).  A non-empty result is
labelled with the column names from `get_table_columns`; an empty result
is returned unlabelled before any introspection.  On `connector.Error`
the handler rolls back, the `finally` block closes cursor and connection,
and `return result` then raises `UnboundLocalError`.  The connection is
closed on every path. -/
def get_all_with_filter (execOutcome : Option (List (List Value)))
    (describeOutcome : Option (List (List Value)))
    (conn : Conn) (filter_list : List Value)
    (table_name column_filter : String) :
    Except PyError ReadOut × List Event × Conn :=
  let query := selectInQuery table_name column_filter filter_list
  match execOutcome with
  | none =>
    (Except.error PyError.unboundLocal,
     [Event.execStmt query none false, Event.rollback, Event.closeCursor,
      Event.closeConn],
     { isOpen := false })
  | some rows =>
    if rows.isEmpty then
      (Except.ok { rows := rows, colLabels := none },
       [Event.execStmt query none true, Event.closeCursor, Event.closeConn],
       { isOpen := false })
    else
      let introspect := get_table_columns describeOutcome conn table_name
      match introspect.1 with
      | Except.ok col_names =>
        (Except.ok { rows := rows, colLabels := some col_names },
         Event.execStmt query none true :: introspect.2.1
           ++ [Event.closeCursor, Event.closeConn],
         { isOpen := false })
      | Except.error e =>
        (Except.error e,
         Event.execStmt query none true :: introspect.2.1
           ++ [Event.closeCursor, Event.closeConn],
         { isOpen := false })

/-- Lines 156-191, `get_all_with_multiple_filters`.  Executes the
multi-column equality SELECT with `filter_values` passed to
`cursor.execute` exactly as supplied — there is NO scalar-to-tuple
coercion on this path.  Labelling and error behaviour mirror
`get_all_with_filter`; the connection is closed on every path. -/
def get_all_with_multiple_filters (execOutcome : Option (List (List Value)))
    (describeOutcome : Option (List (List Value)))
    (conn : Conn) (column_filters : List String) (filter_values : PyArg)
    (table_name : String) :
    Except PyError ReadOut × List Event × Conn :=
  let query := selectEqQuery table_name column_filters
  match execOutcome with
  | none =>
    (Except.error PyError.unboundLocal,
     [Event.execStmt query (some filter_values) false, Event.rollback,
      Event.closeCursor, Event.closeConn],
     { isOpen := false })
  | some rows =>
    if rows.isEmpty then
      (Except.ok { rows := rows, colLabels := none },
       [Event.execStmt query (some filter_values) true, Event.closeCursor,
        Event.closeConn],
       { isOpen := false })
    else
      let introspect := get_table_columns describeOutcome conn table_name
      match introspect.1 with
      | Except.ok col_names =>
        (Except.ok { rows := rows, colLabels := some col_names },
         Event.execStmt query (some filter_values) true :: introspect.2.1
           ++ [Event.closeCursor, Event.closeConn],
         { isOpen := false })
      | Except.error e =>
        (Except.error e,
         Event.execStmt query (some filter_values) true :: introspect.2.1
           ++ [Event.closeCursor, Event.closeConn],
         { isOpen := false })

/-- Lines 193-238, `update_multiple_columns_by_multi_filter`.  The filter
values are coerced to a tuple when a bare scalar was supplied (lines
218-219) and bound as parameters; the update values were inlined into the
SET clause.  On success: commit; on `connector.Error` (`execOk = false`):
rollback.  The `finally` block closes cursor AND connection, and the
function then executes `return 1` — on BOTH paths, so the caller can
never observe a failure through the return value. -/
def update_multiple_columns_by_multi_filter (execOk : Bool) (conn : Conn)
    (column_filters : List String) (filter_values : PyArg)
    (update_columns : List String) (update_values : List Value)
    (table_name : String) :
    Nat × List Event × Conn :=
  let fv := coerceToTuple filter_values
  let query := updateQuery table_name column_filters update_columns update_values
  if execOk then
    (1, [Event.execStmt query (some (PyArg.tup fv)) true, Event.commit true,
         Event.closeCursor, Event.closeConn],
     { isOpen := false })
  else
    (1, [Event.execStmt query (some (PyArg.tup fv)) false, Event.rollback,
         Event.closeCursor, Event.closeConn],
     { isOpen := false })

/-- Pandas `row[filter_col]`: the value of the row at the named column. -/
def rowLookup (columns : List String) (row : List Value) (c : String) : Value :=
  ((columns.zip row).lookup c).getD (Value.str "")

/-- Line 251: the arguments of the per-row update call made by
`update_rows_in_database` — the filter is `[filter_col]` with the bare
scalar `row[filter_col]` as its value, and the update spec is ALL
dataframe columns (`df_columns`) paired with ALL row values
(`row.values.tolist()`). -/
def rowUpdateArgs (dfColumns : List String) (filter_col : String)
    (row : List Value) :
    List String × PyArg × List String × List Value :=
  ([filter_col], PyArg.scalar (rowLookup dfColumns row filter_col),
   dfColumns, row)

/-- Lines 250-253: the row loop of `update_rows_in_database`.  Each row is
translated through `rowUpdateArgs` into one call of
`update_multiple_columns_by_multi_filter`; the loop aborts with `False`
when the returned status is falsy (`if not update_status`), i.e. zero. -/
def syncLoop (execOk : List Value → Bool) (dfColumns : List String)
    (filter_col table_name : String) (conn : Conn) :
    List (List Value) → Bool × List Event × Conn
  | [] => (true, [], conn)
  | row :: rest =>
    let args := rowUpdateArgs dfColumns filter_col row
    let out := update_multiple_columns_by_multi_filter (execOk row) conn
      args.1 args.2.1 args.2.2.1 args.2.2.2 table_name
    if out.1 == 0 then
      (false, out.2.1, out.2.2)
    else
      let tail := syncLoop execOk dfColumns filter_col table_name out.2.2 rest
      (tail.1, out.2.1 ++ tail.2.1, tail.2.2)

/-- Lines 240-254, `update_rows_in_database`.  An empty dataframe is
rejected with `False` before any call; otherwise the rows are processed by
the loop. -/
def update_rows_in_database (execOk : List Value → Bool) (conn : Conn)
    (new_df : DataFrame) (filter_col table_name : String) :
    Bool × List Event × Conn :=
  if new_df.rows.isEmpty then (false, [], conn)
  else syncLoop execOk new_df.columns filter_col table_name conn new_df.rows

theorem numPlaceholders_append (a b : Stmt) :
    numPlaceholders (a ++ b) = numPlaceholders a + numPlaceholders b := by
  induction a with
  | nil => simp [numPlaceholders]
  | cons f rest ih =>
    cases f with
    | lit s => simpa [numPlaceholders] using ih
    | ph => simp [numPlaceholders, ih]; omega

theorem numPlaceholders_joinFrags (sep : String) (ps : List (List Frag)) :
    numPlaceholders (joinFrags sep ps) = (ps.map numPlaceholders).sum := by
  induction ps with
  | nil => rfl
  | cons p ps ih =>
    cases ps with
    | nil => simp [joinFrags]
    | cons q qs =>
      have h : joinFrags sep (p :: q :: qs)
          = p ++ [Frag.lit sep] ++ joinFrags sep (q :: qs) := rfl
      rw [h, numPlaceholders_append, numPlaceholders_append, ih]
      simp [numPlaceholders]

theorem numPlaceholders_where_clause (column_filters : List String) :
    numPlaceholders (where_clause column_filters) = column_filters.length := by
  rw [where_clause, numPlaceholders_joinFrags]
  induction column_filters with
  | nil => rfl
  | cons c cs ih => simp [eqPredicates, numPlaceholders] at *; omega

theorem numPlaceholders_selectEqQuery (table_name : String)
    (column_filters : List String) :
    numPlaceholders (selectEqQuery table_name column_filters)
      = column_filters.length := by
  rw [selectEqQuery, numPlaceholders_append, numPlaceholders_append,
    numPlaceholders_where_clause]
  simp [numPlaceholders]

theorem numPlaceholders_insertQuery (table_name : String)
    (columns : List String) :
    numPlaceholders (insertQuery table_name columns) = columns.length := by
  rw [insertQuery, numPlaceholders_append, numPlaceholders_append,
    numPlaceholders_joinFrags]
  induction columns with
  | nil => rfl
  | cons c cs ih => simp [numPlaceholders] at *; omega

theorem numPlaceholders_updateQuery (table_name : String)
    (column_filters update_columns : List String)
    (update_values : List Value) :
    numPlaceholders
        (updateQuery table_name column_filters update_columns update_values)
      = column_filters.length := by
  rw [updateQuery, numPlaceholders_append, numPlaceholders_append,
    numPlaceholders_where_clause]
  simp [numPlaceholders]

theorem syncLoop_fst (execOk : List Value → Bool) (dfColumns : List String)
    (filter_col table_name : String) (conn : Conn)
    (rows : List (List Value)) :
    (syncLoop execOk dfColumns filter_col table_name conn rows).1 = true := by
  induction rows generalizing conn with
  | nil => rfl
  | cons r rs ih =>
    cases hek : execOk r <;>
      simp [syncLoop, update_multiple_columns_by_multi_filter, rowUpdateArgs,
        hek, ih]

/-- C3: `update_multiple_columns_by_multi_filter` returns the success
value 1 on every execution path — also when statement execution raises
`connector.Error` and the transaction is rolled back — and consequently
`update_rows_in_database` returns `True` for every non-empty dataframe,
whatever the fate of the individual row updates. -/
theorem C3_always_success :
    (∀ (execOk : Bool) (conn : Conn) (column_filters : List String)
        (filter_values : PyArg) (update_columns : List String)
        (update_values : List Value) (table_name : String),
      (update_multiple_columns_by_multi_filter execOk conn column_filters
          filter_values update_columns update_values table_name).1 = 1) ∧
    (∀ (execOk : List Value → Bool) (conn : Conn) (new_df : DataFrame)
        (filter_col table_name : String), new_df.rows ≠ [] →
      (update_rows_in_database execOk conn new_df filter_col
          table_name).1 = true) := by
  constructor
  · intro execOk conn column_filters filter_values update_columns
      update_values table_name
    cases execOk <;> rfl
  · intro execOk conn new_df filter_col table_name hne
    rw [update_rows_in_database]
    simp only [List.isEmpty_iff, hne, if_false]
    exact syncLoop_fst execOk new_df.columns filter_col table_name conn
      new_df.rows

theorem C3_witness :
    (update_multiple_columns_by_multi_filter false { isOpen := true } ["a"]
        (PyArg.tup [Value.int 1]) ["b"] [Value.int 2] "t").1 = 1 ∧
    (update_rows_in_database (fun _ => false) { isOpen := true }
        { columns := ["id"], rows := [[Value.int 1]] } "id" "t").1 = true :=
  ⟨C3_always_success.1 false { isOpen := true } ["a"] (PyArg.tup [Value.int 1])
      ["b"] [Value.int 2] "t",
   C3_always_success.2 (fun _ => false) { isOpen := true }
      { columns := ["id"], rows := [[Value.int 1]] } "id" "t" (by decide)⟩

/-- C9: the claim says that when the schema-description query fails with an
engine-level error, `get_table_columns` returns a Failure value to its
caller.  The code instead reaches `return result` with `result` never
assigned, raising an uncaught `UnboundLocalError`: this theorem evaluates
the embedding on the failing path (`DESCRIBE` raises `connector.Error`)
and shows the outcome is the crash, not a returned failure value. -/
theorem C9_code_eval (conn : Conn) (table_name : String) :
    (get_table_columns none conn table_name).1
      = Except.error PyError.unboundLocal := rfl

/-- A three-row dataset for exercising the bulk update: ids 1, 2, 3. -/
def c1df : DataFrame :=
  { columns := ["id", "name"],
    rows := [[Value.int 1, Value.str "a"], [Value.int 2, Value.str "b"],
             [Value.int 3, Value.str "c"]] }

/-- An engine oracle under which the UPDATE for the row with id 2 raises
`connector.Error` and every other row's UPDATE succeeds. -/
def c1execOk : List Value → Bool
  | Value.int 2 :: _ => false
  | _ => true

/-- C1: the claim says the bulk update is fail-fast — a failing row aborts
the batch with Failure and later rows are never attempted.  Evaluating the
embedding on a 3-row dataset whose second row's UPDATE raises shows the
opposite: all three rows are attempted (three execution events, one of
them failed) and the batch still reports `True`, because
`update_multiple_columns_by_multi_filter` returns 1 even on its error
path, so the guard `if not update_status: return False` can never fire. -/
theorem C1_code_eval :
    (update_rows_in_database c1execOk { isOpen := true } c1df "id" "t").1
        = true ∧
    ((update_rows_in_database c1execOk { isOpen := true } c1df "id"
        "t").2.1.countP (fun e => Event.isExec e)) = 3 ∧
    ((update_rows_in_database c1execOk { isOpen := true } c1df "id"
        "t").2.1.countP (fun e => Event.isFailedExec e)) = 1 := by
  decide

/-- C2 counterexample: the claim says the per-row update spec is exactly
the row's column/value pairs EXCLUDING the filter column.  For a row of
the two-column dataframe `["id", "name"]` filtered on `"id"`, the update
columns actually passed (line 251 passes `df_columns` wholesale) still
contain `"id"`, and the executed UPDATE statement's SET clause assigns the
filter column too. -/
theorem C2_counterexample :
    "id" ∈ (rowUpdateArgs ["id", "name"] "id"
        [Value.int 1, Value.str "a"]).2.2.1 ∧
    (rowUpdateArgs ["id", "name"] "id"
        [Value.int 1, Value.str "a"]).2.2.1 ≠ ["name"] ∧
    (update_rows_in_database (fun _ => true) { isOpen := true }
        { columns := ["id", "name"], rows := [[Value.int 1, Value.str "a"]] }
        "id" "t").2.1.head?
      = some (Event.execStmt
          (updateQuery "t" ["id"] ["id", "name"] [Value.int 1, Value.str "a"])
          (some (PyArg.tup [Value.int 1])) true) := by
  refine ⟨by decide, by decide, ?_⟩
  rfl

theorem mem_syncLoop (execOk : List Value → Bool) (dfColumns : List String)
    (filter_col table_name : String) (conn : Conn)
    (rows : List (List Value)) (row : List Value) (h : row ∈ rows) :
    Event.execStmt (updateQuery table_name [filter_col] dfColumns row)
        (some (PyArg.tup [rowLookup dfColumns row filter_col])) (execOk row)
      ∈ (syncLoop execOk dfColumns filter_col table_name conn rows).2.1 := by
  induction rows generalizing conn with
  | nil => cases h
  | cons r rs ih =>
    rcases List.mem_cons.mp h with hr | hr
    · subst hr
      cases hek : execOk row <;>
        simp [syncLoop, update_multiple_columns_by_multi_filter,
          rowUpdateArgs, coerceToTuple, hek]
    · cases hek : execOk r <;>
        simpa [syncLoop, update_multiple_columns_by_multi_filter,
          rowUpdateArgs, coerceToTuple, hek] using
          Or.inr (ih _ hr)

/-- C2 amended: for every row processed by `update_rows_in_database`, the
per-row update uses the value in the filter column as the single-column
filter key (bound, after scalar coercion, as the one WHERE parameter),
and passes ALL of the row's column/value pairs — the filter column
included — as the update spec to the query builder. -/
theorem C2_amended (execOk : List Value → Bool) (conn : Conn)
    (new_df : DataFrame) (filter_col table_name : String)
    (row : List Value) (hrow : row ∈ new_df.rows) :
    Event.execStmt (updateQuery table_name [filter_col] new_df.columns row)
        (some (PyArg.tup [rowLookup new_df.columns row filter_col]))
        (execOk row)
      ∈ (update_rows_in_database execOk conn new_df filter_col
          table_name).2.1 := by
  rw [update_rows_in_database]
  have hne : new_df.rows ≠ [] := by
    intro hcon
    rw [hcon] at hrow
    cases hrow
  simp only [List.isEmpty_iff, hne, if_false]
  exact mem_syncLoop execOk new_df.columns filter_col table_name conn
    new_df.rows row hrow

theorem C2_amended_witness :
    Event.execStmt (updateQuery "t" ["id"] ["id", "name"]
        [Value.int 5, Value.str "x"])
        (some (PyArg.tup
          [rowLookup ["id", "name"] [Value.int 5, Value.str "x"] "id"])) true
      ∈ (update_rows_in_database (fun _ => true) { isOpen := true }
          { columns := ["id", "name"],
            rows := [[Value.int 5, Value.str "x"]] } "id" "t").2.1 :=
  C2_amended (fun _ => true) { isOpen := true }
    { columns := ["id", "name"], rows := [[Value.int 5, Value.str "x"]] }
    "id" "t" [Value.int 5, Value.str "x"] (by decide)

/-- C4 counterexample: the claim says the equality-filter READ also treats
a bare scalar filter value like the one-element tuple.  The code coerces
only in the update; `get_all_with_multiple_filters` passes the scalar to
`cursor.execute` exactly as supplied, so its behaviour on the scalar `3`
differs from its behaviour on the tuple `(3,)` (the parameters handed to
execution differ). -/
theorem C4_counterexample :
    (get_all_with_multiple_filters (some [[Value.int 7]])
        (some [[Value.str "c"]]) { isOpen := true } ["id"]
        (PyArg.scalar (Value.int 3)) "t").2.1
      ≠ (get_all_with_multiple_filters (some [[Value.int 7]])
        (some [[Value.str "c"]]) { isOpen := true } ["id"]
        (PyArg.tup [Value.int 3]) "t").2.1 ∧
    (get_all_with_multiple_filters (some [[Value.int 7]])
        (some [[Value.str "c"]]) { isOpen := true } ["id"]
        (PyArg.scalar (Value.int 3)) "t").2.1.head?
      = some (Event.execStmt (selectEqQuery "t" ["id"])
          (some (PyArg.scalar (Value.int 3))) true) := by
  decide

/-- C4 amended: the scalar-to-sequence coercion exists only in the
multi-filter UPDATE path — `update_multiple_columns_by_multi_filter`
behaves identically on a bare scalar `v` and on the one-element tuple
`(v,)` — while the equality-filter read passes its filter values to
execution exactly as supplied, with no coercion. -/
theorem C4_amended :
    (∀ (execOk : Bool) (conn : Conn) (column_filters : List String)
        (v : Value) (update_columns : List String)
        (update_values : List Value) (table_name : String),
      update_multiple_columns_by_multi_filter execOk conn column_filters
          (PyArg.scalar v) update_columns update_values table_name
        = update_multiple_columns_by_multi_filter execOk conn column_filters
          (PyArg.tup [v]) update_columns update_values table_name) ∧
    (∀ (execOutcome describeOutcome : Option (List (List Value)))
        (conn : Conn) (column_filters : List String) (filter_values : PyArg)
        (table_name : String),
      (get_all_with_multiple_filters execOutcome describeOutcome conn
          column_filters filter_values table_name).2.1.head?
        = some (Event.execStmt (selectEqQuery table_name column_filters)
            (some filter_values) execOutcome.isSome)) := by
  constructor
  · intro execOk conn column_filters v update_columns update_values table_name
    rfl
  · intro execOutcome describeOutcome conn column_filters filter_values
      table_name
    cases execOutcome with
    | none => rfl
    | some rows =>
      cases rows with
      | nil => rfl
      | cons r rs => cases describeOutcome <;> rfl

/-- C5 counterexample: the claim says a column/value count mismatch in an
update spec fails fast as a ContractViolation before any I/O and is never
silently truncated.  With two update columns and one update value, the
code builds the SET clause from the single pair `zip` yields, proceeds to
execute the statement (one execution event) and returns the success value
1 — no pre-I/O failure at all. -/
theorem C5_counterexample :
    combined_set ["a", "b"] [Value.int 1] = ["a = 1"] ∧
    (update_multiple_columns_by_multi_filter true { isOpen := true } ["f"]
        (PyArg.tup [Value.int 0]) ["a", "b"] [Value.int 1] "t").1 = 1 ∧
    ((update_multiple_columns_by_multi_filter true { isOpen := true } ["f"]
        (PyArg.tup [Value.int 0]) ["a", "b"] [Value.int 1]
        "t").2.1.countP (fun e => Event.isExec e)) = 1 := by
  decide

/-- C5 amended: a mismatched update spec raises no ContractViolation: the
SET clause is silently built from the positional `zip` of columns and
values — `min(len(columns), len(values))` pairs — and the operation always
proceeds to exactly one statement execution; filter-spec count mismatches
likewise reach execution unchecked. -/
theorem C5_amended :
    (∀ (update_columns : List String) (update_values : List Value),
      (combined_set update_columns update_values).length
        = min update_columns.length update_values.length) ∧
    (∀ (execOk : Bool) (conn : Conn) (column_filters : List String)
        (filter_values : PyArg) (update_columns : List String)
        (update_values : List Value) (table_name : String),
      ((update_multiple_columns_by_multi_filter execOk conn column_filters
          filter_values update_columns update_values
          table_name).2.1.countP (fun e => Event.isExec e)) = 1) := by
  constructor
  · intro update_columns update_values
    simp [combined_set]
  · intro execOk conn column_filters filter_values update_columns
      update_values table_name
    cases execOk <;>
      simp [update_multiple_columns_by_multi_filter, List.countP_cons,
        Event.isExec]

/-- The rows for which a statement execution was attempted (one
`execStmt` event carrying the row as its parameter tuple), in order. -/
def attemptedRows (events : List Event) : List (List Value) :=
  events.filterMap (fun e =>
    match e with
    | Event.execStmt _ (some (PyArg.tup row)) _ => some row
    | _ => none)

/-- The rows whose statement execution succeeded, in order. -/
def succeededRows (events : List Event) : List (List Value) :=
  events.filterMap (fun e =>
    match e with
    | Event.execStmt _ (some (PyArg.tup row)) true => some row
    | _ => none)

theorem attemptedRows_rowEvents (query : Stmt) (rowOk : List Value → Bool)
    (rows : List (List Value)) :
    attemptedRows (rows.map
        (fun value => Event.execStmt query (some (PyArg.tup value))
          (rowOk value)))
      = rows := by
  induction rows with
  | nil => rfl
  | cons r rs ih =>
    simp only [List.map_cons, attemptedRows, List.filterMap_cons] at *
    exact congrArg (r :: ·) ih

theorem succeededRows_rowEvents (query : Stmt) (rowOk : List Value → Bool)
    (rows : List (List Value)) :
    succeededRows (rows.map
        (fun value => Event.execStmt query (some (PyArg.tup value))
          (rowOk value)))
      = rows.filter (fun row => rowOk row) := by
  induction rows with
  | nil => rfl
  | cons r rs ih =>
    cases hok : rowOk r <;>
      simp_all [succeededRows, List.filterMap_cons, List.filter_cons, hok]

/-- C6: best-effort bulk insert — for every dataframe, per-row engine
oracle and commit outcome, `insert_into_table` attempts an execution for
every row (an error on one row never aborts the loop), commits exactly
once after the loop regardless of individual row failures, reports the
success value 1, and the rows that went through are exactly those whose
own execution succeeded. -/
theorem C6_best_effort (rowOk : List Value → Bool) (commitOk : Bool)
    (conn : Conn) (data_df : DataFrame) (table_name : String) :
    attemptedRows (insert_into_table rowOk commitOk conn data_df
        table_name).2.1 = data_df.rows ∧
    ((insert_into_table rowOk commitOk conn data_df table_name).2.1.countP
        (fun e => Event.isCommit e)) = 1 ∧
    (insert_into_table rowOk commitOk conn data_df table_name).1 = 1 ∧
    succeededRows (insert_into_table rowOk commitOk conn data_df
        table_name).2.1 = data_df.rows.filter (fun row => rowOk row) := by
  refine ⟨?_, ?_, ?_, ?_⟩
  · cases commitOk <;>
      simp [insert_into_table, attemptedRows, List.filterMap_append] <;>
      simpa [attemptedRows] using
        attemptedRows_rowEvents (insertQuery table_name data_df.columns)
          rowOk data_df.rows
  · have hzero : (data_df.rows.map
        (fun value => Event.execStmt (insertQuery table_name data_df.columns)
          (some (PyArg.tup value)) (rowOk value))).countP
        (fun e => Event.isCommit e) = 0 := by
      rw [List.countP_eq_zero]
      intro e he
      rcases List.mem_map.mp he with ⟨r, _, rfl⟩
      simp [Event.isCommit]
    cases commitOk <;>
      simp [insert_into_table, List.countP_append, List.countP_cons,
        Event.isCommit, hzero]
  · cases commitOk <;> rfl
  · cases commitOk <;>
      simp [insert_into_table, succeededRows, List.filterMap_append] <;>
      simpa [succeededRows] using
        succeededRows_rowEvents (insertQuery table_name data_df.columns)
          rowOk data_df.rows

/-- C7: placeholder/parameter invariant — the select-all and IN-filter
statements carry no placeholders and are executed with no parameters; in
every execution event of every operation the placeholder count of the
statement equals the number of parameters bound with it, given
well-formed specs (filter values one per filter column, dataframe rows
one value per column); and the equality builders produce exactly one
equality predicate per filter column, in declaration order. -/
theorem C7_placeholder_invariant :
    (∀ (table_name : String),
      numPlaceholders (selectAllQuery table_name) = 0) ∧
    (∀ (table_name column_filter : String) (filter_list : List Value),
      numPlaceholders (selectInQuery table_name column_filter filter_list)
        = 0) ∧
    (∀ (execOutcome : Option (List (List Value))) (conn : Conn)
        (table_name : String),
      ((get_all_data_from_table execOutcome conn table_name).2.1.all
        (fun e => Event.phMatch e)) = true) ∧
    (∀ (execOutcome describeOutcome : Option (List (List Value)))
        (conn : Conn) (filter_list : List Value)
        (table_name column_filter : String),
      ((get_all_with_filter execOutcome describeOutcome conn filter_list
          table_name column_filter).2.1.all
        (fun e => Event.phMatch e)) = true) ∧
    (∀ (execOutcome describeOutcome : Option (List (List Value)))
        (conn : Conn) (column_filters : List String) (vs : List Value)
        (table_name : String),
      vs.length = column_filters.length →
      ((get_all_with_multiple_filters execOutcome describeOutcome conn
          column_filters (PyArg.tup vs) table_name).2.1.all
        (fun e => Event.phMatch e)) = true) ∧
    (∀ (rowOk : List Value → Bool) (commitOk : Bool) (conn : Conn)
        (data_df : DataFrame) (table_name : String),
      (∀ row ∈ data_df.rows, row.length = data_df.columns.length) →
      ((insert_into_table rowOk commitOk conn data_df table_name).2.1.all
        (fun e => Event.phMatch e)) = true) ∧
    (∀ (execOk : Bool) (conn : Conn) (column_filters : List String)
        (filter_values : PyArg) (update_columns : List String)
        (update_values : List Value) (table_name : String),
      (coerceToTuple filter_values).length = column_filters.length →
      ((update_multiple_columns_by_multi_filter execOk conn column_filters
          filter_values update_columns update_values table_name).2.1.all
        (fun e => Event.phMatch e)) = true) ∧
    (∀ (column_filters : List String),
      (eqPredicates column_filters).length = column_filters.length ∧
      numPlaceholders (where_clause column_filters)
        = column_filters.length ∧
      eqPredicates column_filters
        = column_filters.map
            (fun column => [Frag.lit (column ++ " = "), Frag.ph])) := by
  refine ⟨?_, ?_, ?_, ?_, ?_, ?_, ?_, ?_⟩
  · intro table_name
    rfl
  · intro table_name column_filter filter_list
    rfl
  · intro execOutcome conn table_name
    cases execOutcome <;> rfl
  · intro execOutcome describeOutcome conn filter_list table_name
      column_filter
    cases execOutcome with
    | none => rfl
    | some rows =>
      cases rows with
      | nil => rfl
      | cons r rs => cases describeOutcome <;> rfl
  · intro execOutcome describeOutcome conn column_filters vs table_name h
    cases execOutcome with
    | none =>
      simp [get_all_with_multiple_filters, Event.phMatch, numParams,
        numPlaceholders_selectEqQuery, h]
    | some rows =>
      cases rows with
      | nil =>
        simp [get_all_with_multiple_filters, Event.phMatch, numParams,
          numPlaceholders_selectEqQuery, h]
      | cons r rs =>
        cases describeOutcome <;>
          simp [get_all_with_multiple_filters, get_table_columns,
            Event.phMatch, numParams, numPlaceholders_selectEqQuery,
            describeQuery, numPlaceholders, numPlaceholders_append,
            numPlaceholders_where_clause, h]
  · intro rowOk commitOk conn data_df table_name h
    have hrows : (data_df.rows.map
        (fun value => Event.execStmt (insertQuery table_name data_df.columns)
          (some (PyArg.tup value)) (rowOk value))).all
        (fun e => Event.phMatch e) = true := by
      rw [List.all_eq_true]
      intro e he
      rcases List.mem_map.mp he with ⟨r, hrmem, rfl⟩
      simp [Event.phMatch, numParams, numPlaceholders_insertQuery,
        h r hrmem]
    cases commitOk <;>
      simp_all [insert_into_table, List.all_append, Event.phMatch] <;>
      assumption
  · intro execOk conn column_filters filter_values update_columns
      update_values table_name h
    cases execOk <;>
      simp [update_multiple_columns_by_multi_filter, Event.phMatch,
        numParams, numPlaceholders_updateQuery, h]
  · intro column_filters
    exact ⟨by simp [eqPredicates],
      numPlaceholders_where_clause column_filters, rfl⟩

theorem C7_witness :
    ((get_all_with_multiple_filters (some [[Value.int 1]])
        (some [[Value.str "c"]]) { isOpen := true } ["id", "d"]
        (PyArg.tup [Value.int 3, Value.str "H"]) "t").2.1.all
      (fun e => Event.phMatch e)) = true ∧
    ((insert_into_table (fun _ => true) true { isOpen := true }
        { columns := ["a", "b"], rows := [[Value.int 1, Value.int 2]] }
        "t").2.1.all (fun e => Event.phMatch e)) = true ∧
    ((update_multiple_columns_by_multi_filter true { isOpen := true }
        ["id"] (PyArg.scalar (Value.int 3)) ["a"] [Value.int 9]
        "t").2.1.all (fun e => Event.phMatch e)) = true :=
  ⟨C7_placeholder_invariant.2.2.2.2.1 (some [[Value.int 1]])
      (some [[Value.str "c"]]) { isOpen := true } ["id", "d"]
      [Value.int 3, Value.str "H"] "t" (by decide),
   C7_placeholder_invariant.2.2.2.2.2.1 (fun _ => true) true
      { isOpen := true }
      { columns := ["a", "b"], rows := [[Value.int 1, Value.int 2]] } "t"
      (by decide),
   C7_placeholder_invariant.2.2.2.2.2.2.1 true { isOpen := true } ["id"]
      (PyArg.scalar (Value.int 3)) ["a"] [Value.int 9] "t" (by decide)⟩

/-- C8: for both filtered reads, an empty raw result is returned
immediately as an empty, unlabelled tabular result — an ordinary `ok`
value (not an error), independent of the introspector — and whenever a
read returns `ok`, column labels from the Schema Introspector are
attached if and only if the result rows are non-empty; on a non-empty
result the labels are exactly the introspector's answer. -/
theorem C8_labeling :
    (∀ (describeOutcome : Option (List (List Value))) (conn : Conn)
        (filter_list : List Value) (table_name column_filter : String),
      (get_all_with_filter (some []) describeOutcome conn filter_list
          table_name column_filter).1
        = Except.ok { rows := [], colLabels := none }) ∧
    (∀ (execOutcome describeOutcome : Option (List (List Value)))
        (conn : Conn) (filter_list : List Value)
        (table_name column_filter : String) (out : ReadOut),
      (get_all_with_filter execOutcome describeOutcome conn filter_list
          table_name column_filter).1 = Except.ok out →
      (out.colLabels.isSome ↔ out.rows ≠ [])) ∧
    (∀ (rows : List (List Value))
        (describeOutcome : Option (List (List Value))) (conn : Conn)
        (filter_list : List Value) (table_name column_filter : String),
      rows ≠ [] →
      ∀ col_names, (get_table_columns describeOutcome conn table_name).1
          = Except.ok col_names →
      (get_all_with_filter (some rows) describeOutcome conn filter_list
          table_name column_filter).1
        = Except.ok { rows := rows, colLabels := some col_names }) ∧
    (∀ (describeOutcome : Option (List (List Value))) (conn : Conn)
        (column_filters : List String) (filter_values : PyArg)
        (table_name : String),
      (get_all_with_multiple_filters (some []) describeOutcome conn
          column_filters filter_values table_name).1
        = Except.ok { rows := [], colLabels := none }) ∧
    (∀ (execOutcome describeOutcome : Option (List (List Value)))
        (conn : Conn) (column_filters : List String)
        (filter_values : PyArg) (table_name : String) (out : ReadOut),
      (get_all_with_multiple_filters execOutcome describeOutcome conn
          column_filters filter_values table_name).1 = Except.ok out →
      (out.colLabels.isSome ↔ out.rows ≠ [])) ∧
    (∀ (rows : List (List Value))
        (describeOutcome : Option (List (List Value))) (conn : Conn)
        (column_filters : List String) (filter_values : PyArg)
        (table_name : String),
      rows ≠ [] →
      ∀ col_names, (get_table_columns describeOutcome conn table_name).1
          = Except.ok col_names →
      (get_all_with_multiple_filters (some rows) describeOutcome conn
          column_filters filter_values table_name).1
        = Except.ok { rows := rows, colLabels := some col_names }) := by
  refine ⟨?_, ?_, ?_, ?_, ?_, ?_⟩
  · intro describeOutcome conn filter_list table_name column_filter
    rfl
  · intro execOutcome describeOutcome conn filter_list table_name
      column_filter out hout
    cases execOutcome with
    | none => simp [get_all_with_filter] at hout
    | some rows =>
      cases rows with
      | nil =>
        simp [get_all_with_filter] at hout
        simp [← hout]
      | cons r rs =>
        cases describeOutcome with
        | none => simp [get_all_with_filter, get_table_columns] at hout
        | some drows =>
          simp [get_all_with_filter, get_table_columns] at hout
          simp [← hout]
  · intro rows describeOutcome conn filter_list table_name column_filter
      hne col_names hcols
    cases rows with
    | nil => exact absurd rfl hne
    | cons r rs =>
      cases describeOutcome with
      | none => simp [get_table_columns] at hcols
      | some drows =>
        simp [get_table_columns] at hcols
        simp [get_all_with_filter, get_table_columns, hcols]
  · intro describeOutcome conn column_filters filter_values table_name
    rfl
  · intro execOutcome describeOutcome conn column_filters filter_values
      table_name out hout
    cases execOutcome with
    | none => simp [get_all_with_multiple_filters] at hout
    | some rows =>
      cases rows with
      | nil =>
        simp [get_all_with_multiple_filters] at hout
        simp [← hout]
      | cons r rs =>
        cases describeOutcome with
        | none =>
          simp [get_all_with_multiple_filters, get_table_columns] at hout
        | some drows =>
          simp [get_all_with_multiple_filters, get_table_columns] at hout
          simp [← hout]
  · intro rows describeOutcome conn column_filters filter_values
      table_name hne col_names hcols
    cases rows with
    | nil => exact absurd rfl hne
    | cons r rs =>
      cases describeOutcome with
      | none => simp [get_table_columns] at hcols
      | some drows =>
        simp [get_table_columns] at hcols
        simp [get_all_with_multiple_filters, get_table_columns, hcols]

theorem C8_witness :
    ((ReadOut.mk [[Value.int 1]]
        (some [Value.str "c"])).colLabels.isSome
      ↔ [[Value.int 1]] ≠ ([] : List (List Value))) ∧
    (get_all_with_filter (some [[Value.int 1]]) (some [[Value.str "c"]])
        { isOpen := true } [Value.int 1] "t" "id").1
      = Except.ok (ReadOut.mk [[Value.int 1]] (some [Value.str "c"])) :=
  ⟨C8_labeling.2.1 (some [[Value.int 1]]) (some [[Value.str "c"]])
      { isOpen := true } [Value.int 1] "t" "id"
      (ReadOut.mk [[Value.int 1]] (some [Value.str "c"])) (by rfl),
   C8_labeling.2.2.1 [[Value.int 1]] (some [[Value.str "c"]])
      { isOpen := true } [Value.int 1] "t" "id" (by decide)
      [Value.str "c"] (by rfl)⟩

/-- C10: every invocation of the IN-filter read, the multi-column
equality read, or the multi-filter update closes the borrowed connection
as a side effect — a `closeConn` event occurs and the connection comes
back with its liveness flag cleared — on the success path and on the
error path alike, so the connection cannot be reused by a subsequent
call. -/
theorem C10_connection_closed :
    (∀ (execOutcome describeOutcome : Option (List (List Value)))
        (conn : Conn) (filter_list : List Value)
        (table_name column_filter : String),
      (get_all_with_filter execOutcome describeOutcome conn filter_list
          table_name column_filter).2.2 = { isOpen := false } ∧
      Event.closeConn ∈ (get_all_with_filter execOutcome describeOutcome
          conn filter_list table_name column_filter).2.1) ∧
    (∀ (execOutcome describeOutcome : Option (List (List Value)))
        (conn : Conn) (column_filters : List String)
        (filter_values : PyArg) (table_name : String),
      (get_all_with_multiple_filters execOutcome describeOutcome conn
          column_filters filter_values table_name).2.2
        = { isOpen := false } ∧
      Event.closeConn ∈ (get_all_with_multiple_filters execOutcome
          describeOutcome conn column_filters filter_values
          table_name).2.1) ∧
    (∀ (execOk : Bool) (conn : Conn) (column_filters : List String)
        (filter_values : PyArg) (update_columns : List String)
        (update_values : List Value) (table_name : String),
      (update_multiple_columns_by_multi_filter execOk conn column_filters
          filter_values update_columns update_values table_name).2.2
        = { isOpen := false } ∧
      Event.closeConn ∈ (update_multiple_columns_by_multi_filter execOk
          conn column_filters filter_values update_columns update_values
          table_name).2.1) := by
  refine ⟨?_, ?_, ?_⟩
  · intro execOutcome describeOutcome conn filter_list table_name
      column_filter
    cases execOutcome with
    | none => exact ⟨rfl, by simp [get_all_with_filter]⟩
    | some rows =>
      cases rows with
      | nil => exact ⟨rfl, by simp [get_all_with_filter]⟩
      | cons r rs =>
        cases describeOutcome <;>
          exact ⟨rfl, by simp [get_all_with_filter, get_table_columns]⟩
  · intro execOutcome describeOutcome conn column_filters filter_values
      table_name
    cases execOutcome with
    | none => exact ⟨rfl, by simp [get_all_with_multiple_filters]⟩
    | some rows =>
      cases rows with
      | nil => exact ⟨rfl, by simp [get_all_with_multiple_filters]⟩
      | cons r rs =>
        cases describeOutcome <;>
          exact ⟨rfl, by simp [get_all_with_multiple_filters,
            get_table_columns]⟩
  · intro execOk conn column_filters filter_values update_columns
      update_values table_name
    cases execOk <;>
      exact ⟨rfl, by simp [update_multiple_columns_by_multi_filter]⟩
